import Mathlib

/-
Verification development for the tg-med-bot repository: a shallow embedding
of the appointment dialog state machine (booking, edit, delete flows) and of
the backend API client helpers, translated from the Python sources
src/handlers/create_step_handler.py, src/handlers/edit_handler.py,
src/handlers/delete_handler.py and src/clients/backend_api_client.py.

Conventions of the embedding:
- Telegram contexts (`context.user_data`) become explicit state records;
  dictionary keys become `Option`-typed fields, `dict.pop` becomes setting
  the field to `none`, `context.user_data.clear()` becomes the record with
  all default (empty) fields.
- Backend HTTP calls become fields of a `Backend` record (total functions:
  the claims under study do not concern transport failures); each handler
  result carries the list of backend queries it issued, the keyboard option
  list it offered, the chat messages it sent, and any mutation payloads.
- Uncaught Python exceptions (KeyError / ValueError escaping a handler) are
  modelled by a distinguished CRASH step with the state left unchanged.
- `datetime.strptime`/`strftime` with formats "%Y-%m-%d" and "%H:%M" are
  embedded as executable parsers/printers over a calendar-validated Date
  type; dates are advanced day by day (timedelta is only used with
  0..14 days in the source).
-/

/- ---------- Calendar dates ("%Y-%m-%d") and wall-clock times ("%H:%M") ---------- -/

def isLeap (y : Nat) : Bool :=
  (y % 4 == 0 && y % 100 != 0) || y % 400 == 0

def daysInMonth (y m : Nat) : Nat :=
  if m = 2 then (if isLeap y then 29 else 28)
  else if m = 4 ∨ m = 6 ∨ m = 9 ∨ m = 11 then 30
  else 31

structure Date where
  year : Nat
  month : Nat
  day : Nat
deriving Repr, DecidableEq, BEq

/-- Validity exactly as `datetime.date` accepts: year ≥ 1 (MINYEAR), month in
1..12, day in 1..days-in-month. -/
def Date.isValid (d : Date) : Bool :=
  1 ≤ d.year && 1 ≤ d.month && d.month ≤ 12 && 1 ≤ d.day && d.day ≤ daysInMonth d.year d.month

/-- The next calendar day (used to embed `date.today() + timedelta(days=i)`,
which the source only uses with small i). -/
def Date.succDay (d : Date) : Date :=
  if d.day < daysInMonth d.year d.month then { d with day := d.day + 1 }
  else if d.month < 12 then { year := d.year, month := d.month + 1, day := 1 }
  else { year := d.year + 1, month := 1, day := 1 }

def addDays (d : Date) : Nat → Date
  | 0 => d
  | n + 1 => (addDays d n).succDay

/-- Python `date` comparison (lexicographic on year, month, day). -/
def Date.ltb (a b : Date) : Bool :=
  a.year < b.year ||
    (a.year == b.year &&
      (a.month < b.month || (a.month == b.month && a.day < b.day)))

/-- A moment in time: a calendar date plus seconds since midnight. Embeds the
`datetime` values the handlers compare (`datetime.combine(...)` has seconds
zero; `datetime.now()` may have any second of the day). -/
structure DateTime where
  date : Date
  sec : Nat
deriving Repr, DecidableEq, BEq

/-- Python `datetime` comparison restricted to the values the code builds. -/
def DateTime.ltb (a b : DateTime) : Bool :=
  a.date.ltb b.date || (a.date == b.date && a.sec < b.sec)

/-- Splitting a character list at every occurrence of a separator character
(the behaviour of Python `str.split(sep)` for a one-character separator). -/
def splitOnChar (c : Char) : List Char → List (List Char)
  | [] => [[]]
  | x :: xs =>
    if x = c then [] :: splitOnChar c xs
    else
      match splitOnChar c xs with
      | [] => [[x]]
      | h :: t => (x :: h) :: t

/-- A nonempty run of decimal digits. -/
def isDigits (l : List Char) : Bool :=
  decide (l ≠ []) && l.all Char.isDigit

/-- The number denoted by a list of decimal digits. -/
def digitsToNat (l : List Char) : Nat :=
  l.foldl (fun a c => a * 10 + (c.toNat - 48)) 0

/-- Whitespace as Python `str.strip()` removes it. -/
def isSpaceChar (c : Char) : Bool :=
  c = ' ' || c = '\t' || c = '\n' || c = '\r'

/-- Python `str.strip()`. -/
def trimChars (l : List Char) : List Char :=
  ((l.dropWhile isSpaceChar).reverse.dropWhile isSpaceChar).reverse

/-- Python `int(s.strip())`: optional sign, decimal digits; `none` when the
call would raise ValueError. -/
def parseIntPy (s : String) : Option Int :=
  match trimChars s.data with
  | '-' :: rest => if isDigits rest then some (-(digitsToNat rest : Int)) else none
  | '+' :: rest => if isDigits rest then some ((digitsToNat rest : Int)) else none
  | t => if isDigits t then some ((digitsToNat t : Int)) else none

/-- Embeds `datetime.strptime(s, "%Y-%m-%d").date()`: 1-4 digit year,
1-2 digit month and day, and full calendar validation (a failing parse in
Python raises ValueError; here it returns `none`). -/
def parseDate (s : String) : Option Date :=
  match splitOnChar '-' s.data with
  | [ys, ms, ds] =>
    if isDigits ys && ys.length ≤ 4 && isDigits ms && ms.length ≤ 2 &&
        isDigits ds && ds.length ≤ 2 then
      let d : Date := ⟨digitsToNat ys, digitsToNat ms, digitsToNat ds⟩
      if d.isValid then some d else none
    else none
  | _ => none

/-- Embeds `datetime.strptime(s, "%H:%M").time()` as minutes since midnight. -/
def parseTime (s : String) : Option Nat :=
  match splitOnChar ':' s.data with
  | [hs, ms] =>
    if isDigits hs && hs.length ≤ 2 && isDigits ms && ms.length ≤ 2 then
      let h := digitsToNat hs
      let m := digitsToNat ms
      if h ≤ 23 && m ≤ 59 then some (h * 60 + m) else none
    else none
  | _ => none

def padNum (w n : Nat) : String :=
  let s := toString n
  String.mk (List.replicate (w - s.length) '0') ++ s

/-- Embeds `d.strftime("%Y-%m-%d")`. -/
def formatDate (d : Date) : String :=
  padNum 4 d.year ++ "-" ++ padNum 2 d.month ++ "-" ++ padNum 2 d.day

/-- Embeds `t.strftime("%H:%M")` on minutes since midnight. -/
def formatTime (m : Nat) : String :=
  padNum 2 (m / 60) ++ ":" ++ padNum 2 (m % 60)

/- ---------- Substring containment (Python `needle in hay`) ---------- -/

def hasSubAux (needle : List Char) : List Char → Bool
  | [] => needle.isEmpty
  | c :: rest => needle.isPrefixOf (c :: rest) || hasSubAux needle rest

/-- Python substring test `needle in hay`. -/
def hasSub (needle hay : String) : Bool :=
  hasSubAux needle.data hay.data

/- ---------- Backend data entities ---------- -/

structure Clinic where
  clinicId : Nat
  name : String
  location : String
deriving Repr, DecidableEq, BEq

structure SpecItem where
  id : Nat
  name : String
deriving Repr, DecidableEq, BEq

structure Doctor where
  doctorId : Nat
  name : String
  speciality : String
deriving Repr, DecidableEq, BEq

structure Appointment where
  appointmentId : Nat
  patientUuid : String
  patientName : String
  phone : String
  doctorId : Nat
  appointmentTime : String
deriving Repr, DecidableEq, BEq

/- ---------- backend_api_client.get_doctor_working_hours (claim C9) ---------- -/

/-- A JSON value as the backend may return it to `get_doctor_working_hours`. -/
inductive JsonVal where
  | str (s : String)
  | num (n : Int)
  | arr (xs : List JsonVal)
  | obj
  | null

/-- Embeds the response handling of `BackendApiClient.get_doctor_working_hours`
(src/clients/backend_api_client.py lines 154-172): when the JSON response is
a list, keep the string elements of length at least 5 and truncate each to
its first five characters (`time_str[:5]`); when the response is not a list,
the local variable `formatted_hours` is never assigned and the trailing
`return formatted_hours` raises UnboundLocalError, modelled as `none`. -/
def get_doctor_working_hours (api_response : JsonVal) : Option (List String) :=
  match api_response with
  | .arr xs =>
    some (xs.filterMap fun x =>
      match x with
      | .str s => if 5 ≤ s.length then some (s.take 5) else none
      | _ => none)
  | _ => none

/-- The string elements of a JSON array, in order. -/
def strElems (xs : List JsonVal) : List String :=
  xs.filterMap fun x =>
    match x with
    | .str s => some s
    | _ => none

/-- Whether a JSON value is an array (Python `isinstance(api_response, list)`). -/
def JsonVal.isArr : JsonVal → Bool
  | .arr _ => true
  | _ => false

/- ---------- Booking flow (create_step_handler.py) : state ---------- -/

/-- The `create_appointment_data` dictionary accumulated by the booking flow
(the AppointmentDraft of the spec). Every key is optional, matching dict
presence. -/
structure AppointmentData where
  clinic_id : Option Nat := none
  clinic_name : Option String := none
  specialization_id : Option Nat := none
  specialization_name : Option String := none
  doctor_id : Option Nat := none
  doctor_name : Option String := none
  chosen_date_str : Option String := none
  appointment_datetime_iso : Option String := none
deriving Repr, DecidableEq, BEq

/-- The `prefilled_info` dictionary supplied by intent classification. -/
structure Prefilled where
  clinic : Option String := none
  specialization : Option String := none
  doctor : Option String := none
  date : Option String := none
  time : Option String := none
deriving Repr, DecidableEq, BEq

/-- `context.user_data` during the booking flow: the draft, the prefilled
slots, and the transient candidate lists (`_temp_clinics_list`,
`_temp_specs_list`, `_temp_doctors_list`, `_temp_available_times`). -/
structure UserData where
  create_appointment_data : AppointmentData := {}
  prefilled_info : Prefilled := {}
  temp_clinics_list : Option (List Clinic) := none
  temp_specs_list : Option (List SpecItem) := none
  temp_doctors_list : Option (List Doctor) := none
  temp_available_times : Option (List String) := none
deriving Repr, DecidableEq, BEq

/-- Conversation states of the booking flow, plus END
(ConversationHandler.END) and CRASH (an uncaught Python exception escapes
the handler, leaving the stored conversation state untouched). -/
inductive Step where
  | CHOOSE_CLINIC
  | CHOOSE_SPECIALIZATION
  | CHOOSE_DOCTOR
  | CHOOSE_DATE
  | CHOOSE_TIME
  | CONFIRMATION
  | END
  | CRASH
deriving Repr, DecidableEq, BEq

/-- Position of a step in the forward order of the dialog. -/
def Step.rank : Step → Nat
  | .CHOOSE_CLINIC => 0
  | .CHOOSE_SPECIALIZATION => 1
  | .CHOOSE_DOCTOR => 2
  | .CHOOSE_DATE => 3
  | .CHOOSE_TIME => 4
  | .CONFIRMATION => 5
  | .END => 6
  | .CRASH => 7

/-- Whether a step is one of the six interactive dialog states. -/
def Step.isDialog : Step → Bool
  | .END => false
  | .CRASH => false
  | _ => true

/-- `cur` hands control to a strictly later interactive dialog step. -/
def advancesPast (cur next : Step) : Prop :=
  next.isDialog = true ∧ cur.rank < next.rank

/-- Tags for the backend calls a handler issues. -/
inductive Query where
  | clinicCards
  | clinicByName
  | specializationsQ
  | doctorsQ
  | workingHours
  | apptsByUser
  | doctorCard
  | clinicCard
  | postAppt
  | putAppt
  | deleteApptQ
deriving Repr, DecidableEq, BEq

/-- The body posted by `process_confirmation` (POST /Appointment). -/
structure CreateRequest where
  patientName : Option String
  patientUuid : Option String
  phone : String
  appointmentTime : String
  doctorId : Nat
deriving Repr, DecidableEq, BEq

/-- Outcome of one booking-flow handler invocation: the updated
`context.user_data`, the returned conversation state, the keyboard options of
the prompt that was issued (if any), the backend queries performed, the chat
messages sent, and the create-appointment request submitted (if any). -/
structure StepResult where
  state : UserData
  next : Step
  offered : Option (List String) := none
  queries : List Query := []
  messages : List String := []
  posted : Option CreateRequest := none
deriving Repr, DecidableEq, BEq

/-- The backend API at the boundary the handlers see (the results of the
`BackendApiClient` wrapper methods, already normalized by the client). The
functions are total: the claims under study do not concern network errors. -/
structure Backend where
  clinic_cards : List Clinic
  clinic_by_name : String → List Clinic
  specializations : Option Nat → Option String → Option String → Option String → List SpecItem
  specific_doctors : Option String → Option Nat → Option String → Option String → List Doctor
  working_hours : Option Nat → Option String → List String
  post_success : Bool
  appointments_by_user : String → List Appointment

/-- The prefilled datetime string f"{date}T{time}" built by
`prompt_specialization` / `prompt_doctor` when both parts are present. -/
def prefilledDT (pf : Prefilled) : Option String :=
  match pf.date, pf.time with
  | some d, some t => some (d ++ "T" ++ t)
  | _, _ => none

/- ---------- Booking flow : prompt handlers ---------- -/

/-- Embeds `CreateStepHandler.prompt_clinic` (lines 69-94): fetch clinics
(by prefilled name when present), END when the list is empty, otherwise
store `_temp_clinics_list` and offer the clinic names. -/
def prompt_clinic (be : Backend) (ud : UserData) : StepResult :=
  let fetched : List Clinic × Query :=
    match ud.prefilled_info.clinic with
    | some n => (be.clinic_by_name n, Query.clinicByName)
    | none => (be.clinic_cards, Query.clinicCards)
  if fetched.1.isEmpty then
    { state := ud, next := .END, queries := [fetched.2],
      messages := ["Извините, в данный момент нет доступных клиник."] }
  else
    { state := { ud with temp_clinics_list := some fetched.1 },
      next := .CHOOSE_CLINIC,
      offered := some (fetched.1.map (fun c => c.name)),
      queries := [fetched.2],
      messages := ["Выберите клинику:"] }

/-- Embeds `CreateStepHandler.cancel` (lines 491-505): message, clear all
user data, ConversationHandler.END. -/
def cancel_create : StepResult :=
  { state := {}, next := .END, messages := ["Создание записи отменено."] }

/-- Embeds `CreateStepHandler.prompt_specialization` (lines 133-165): query
specializations filtered by the chosen clinic and the prefilled values; on an
empty result inform the user and fall back to `prompt_clinic`; otherwise
store `_temp_specs_list` and offer the specialization names. -/
def prompt_specialization (be : Backend) (ud : UserData) : StepResult :=
  let specs := be.specializations ud.create_appointment_data.clinic_id
      ud.prefilled_info.specialization ud.prefilled_info.doctor
      (prefilledDT ud.prefilled_info)
  if specs.isEmpty then
    let r := prompt_clinic be ud
    { r with queries := Query.specializationsQ :: r.queries,
             messages := "Нет доступных специализаций." :: r.messages }
  else
    { state := { ud with temp_specs_list := some specs },
      next := .CHOOSE_SPECIALIZATION,
      offered := some (specs.map (fun s => s.name)),
      queries := [Query.specializationsQ],
      messages := ["Выберите специальность врача:"] }

/-- Embeds `CreateStepHandler.prompt_doctor` (lines 204-240): query doctors
filtered by chosen specialization/clinic and prefilled values; on an empty
result fall back to `prompt_specialization`; otherwise store
`_temp_doctors_list` and offer the doctor names. -/
def prompt_doctor (be : Backend) (ud : UserData) : StepResult :=
  let doctors := be.specific_doctors ud.create_appointment_data.specialization_name
      ud.create_appointment_data.clinic_id ud.prefilled_info.doctor
      (prefilledDT ud.prefilled_info)
  if doctors.isEmpty then
    let r := prompt_specialization be ud
    { r with queries := Query.doctorsQ :: r.queries,
             messages := "По выбранной специальности в данной клинике нет врачей. Попробуйте изменить выбор." :: r.messages }
  else
    { state := { ud with temp_doctors_list := some doctors },
      next := .CHOOSE_DOCTOR,
      offered := some (doctors.map (fun d => d.name)),
      queries := [Query.doctorsQ],
      messages := ["Выберите врача:"] }

/-- The list of the next 14 days rendered as "%Y-%m-%d" strings
(`dates_next_two_weeks` in `prompt_date`). -/
def datesNextTwoWeeks (today : Date) : List String :=
  (List.range 14).map (fun i => formatDate (addDays today i))

/-- Embeds `CreateStepHandler.prompt_date` (lines 279-306): parse the
prefilled date if present (an unparseable one raises ValueError in the
source, modelled as CRASH); discard it when it is later than today+14 days or
earlier than today; offer either the surviving prefilled date alone or the
next 14 days. -/
def prompt_date (today : Date) (ud : UserData) : StepResult :=
  match ud.prefilled_info.date with
  | some s =>
    match parseDate s with
    | none => { state := ud, next := .CRASH }
    | some p =>
      if (addDays today 14).ltb p || p.ltb today then
        { state := ud, next := .CHOOSE_DATE,
          offered := some (datesNextTwoWeeks today),
          messages := ["Выберите дату приема:"] }
      else
        { state := ud, next := .CHOOSE_DATE,
          offered := some [formatDate p],
          messages := ["Выберите дату приема:"] }
  | none =>
    { state := ud, next := .CHOOSE_DATE,
      offered := some (datesNextTwoWeeks today),
      messages := ["Выберите дату приема:"] }

/-- Embeds `CreateStepHandler.prompt_confirmation` (lines 424-443). -/
def prompt_confirmation (ud : UserData) : StepResult :=
  { state := ud, next := .CONFIRMATION,
    offered := some ["Подтвердить", "Изменить", "Отменить"],
    messages := ["Подтвердите запись:"] }

/- ---------- Booking flow : process handlers ---------- -/

/-- Embeds `CreateStepHandler.process_clinic_choice` (lines 96-130): cancel
on the exact label, otherwise resolve the reply by exact name against
`_temp_clinics_list`; a miss re-runs `prompt_clinic` (re-querying the
backend); a hit writes clinic id and name into the draft, clears the
candidate list and moves on to `prompt_specialization`. -/
def process_clinic_choice (be : Backend) (reply : String) (ud : UserData) : StepResult :=
  if reply = "Отмена" then
    cancel_create
  else
    match (ud.temp_clinics_list.getD []).find? (fun c => c.name = reply) with
    | none =>
      let r := prompt_clinic be ud
      { r with messages := "Пожалуйста, выберите клинику из списка." :: r.messages }
    | some c =>
      let ad := { ud.create_appointment_data with
                  clinic_id := some c.clinicId, clinic_name := some c.name }
      prompt_specialization be { ud with create_appointment_data := ad, temp_clinics_list := none }

/-- Embeds `CreateStepHandler.process_specialization_choice` (lines 167-201):
the back label pops the clinic slots and returns to `prompt_clinic`; a miss
re-runs `prompt_specialization`; a hit writes the specialization slots,
clears the candidate list and moves on to `prompt_doctor`. -/
def process_specialization_choice (be : Backend) (reply : String) (ud : UserData) : StepResult :=
  if reply = "Назад (к клинике)" then
    let ad := { ud.create_appointment_data with clinic_id := none, clinic_name := none }
    prompt_clinic be { ud with create_appointment_data := ad }
  else
    match (ud.temp_specs_list.getD []).find? (fun s => s.name = reply) with
    | none =>
      let r := prompt_specialization be ud
      { r with messages := "Пожалуйста, выберите специальность из списка." :: r.messages }
    | some s =>
      let ad := { ud.create_appointment_data with
                  specialization_id := some s.id, specialization_name := some s.name }
      prompt_doctor be { ud with create_appointment_data := ad, temp_specs_list := none }

/-- Embeds `CreateStepHandler.process_doctor_choice` (lines 242-276): the
back label pops the specialization slots and returns to
`prompt_specialization`; a miss re-runs `prompt_doctor`; a hit writes the
doctor slots, clears the candidate list and moves on to `prompt_date`. -/
def process_doctor_choice (be : Backend) (today : Date) (reply : String) (ud : UserData) : StepResult :=
  if reply = "Назад (к специализации)" then
    let ad := { ud.create_appointment_data with
                specialization_id := none, specialization_name := none }
    prompt_specialization be { ud with create_appointment_data := ad }
  else
    match (ud.temp_doctors_list.getD []).find? (fun d => d.name = reply) with
    | none =>
      let r := prompt_doctor be ud
      { r with messages := "Пожалуйста, выберите врача из списка." :: r.messages }
    | some d =>
      let ad := { ud.create_appointment_data with
                  doctor_id := some d.doctorId, doctor_name := some d.name }
      prompt_date today { ud with create_appointment_data := ad, temp_doctors_list := none }

/-- Embeds `CreateStepHandler.process_date_choice` (lines 308-357): the back
label pops the doctor slots and returns to `prompt_doctor`; a reply that does
not parse with "%Y-%m-%d" re-runs `prompt_date`; a parseable reply is written
to `chosen_date_str` without any membership check against the offered dates;
the slots of the doctor are then fetched, an empty result pops the date
back and re-runs `prompt_date`, otherwise the full fetched list is stored in
`_temp_available_times` while the displayed options are narrowed to a
prefilled time when it is a member. -/
def process_date_choice (be : Backend) (today : Date) (reply : String) (ud : UserData) : StepResult :=
  if reply = "Назад (к врачу)" then
    let ad := { ud.create_appointment_data with doctor_id := none, doctor_name := none }
    prompt_doctor be { ud with create_appointment_data := ad }
  else
    match parseDate reply with
    | none =>
      let r := prompt_date today ud
      { r with messages := "Некорректный формат даты. Выберите из предложенных." :: r.messages }
    | some _ =>
      let ad := { ud.create_appointment_data with chosen_date_str := some reply }
      let times := be.working_hours ad.doctor_id (some reply)
      if times.isEmpty then
        let ad2 := { ad with chosen_date_str := none }
        let r := prompt_date today { ud with create_appointment_data := ad2 }
        { r with queries := Query.workingHours :: r.queries,
                 messages := "На выбранную дату нет доступного времени. Пожалуйста, выберите другую дату." :: r.messages }
      else
        let displayed :=
          match ud.prefilled_info.time with
          | some t => if times.contains t then [t] else times
          | none => times
        { state := { ud with create_appointment_data := ad,
                             temp_available_times := some times },
          next := .CHOOSE_TIME,
          offered := some displayed,
          queries := [Query.workingHours],
          messages := ["Выберите время приема:"] }

/-- Embeds `CreateStepHandler.process_time_choice` (lines 360-421): the back
label pops `chosen_date_str` and the stored times and returns to
`prompt_date`; a reply absent from the stored `_temp_available_times` list
repeats the time prompt reusing that stored list without any backend query;
a member reply is combined with `chosen_date_str` (a missing key raises
KeyError, modelled as CRASH); a combined datetime strictly earlier than now
is rejected back to `prompt_date`; otherwise the ISO datetime is written to
the draft and the flow moves to `prompt_confirmation`. -/
def process_time_choice (today : Date) (now : DateTime) (reply : String) (ud : UserData) : StepResult :=
  if reply = "Назад (к дате)" then
    let ad := { ud.create_appointment_data with chosen_date_str := none }
    prompt_date today { ud with create_appointment_data := ad, temp_available_times := none }
  else
    let available := ud.temp_available_times.getD []
    if available.contains reply = false then
      { state := ud, next := .CHOOSE_TIME,
        offered := some available,
        messages := ["Пожалуйста, выберите время из списка.", "Выберите время приема:"] }
    else
      match ud.create_appointment_data.chosen_date_str with
      | none => { state := ud, next := .CRASH }
      | some ds =>
        match parseDate ds, parseTime reply with
        | some d, some tm =>
          if DateTime.ltb ⟨d, tm * 60⟩ now then
            let r := prompt_date today { ud with temp_available_times := none }
            { r with messages := "Выбранная дата и время уже прошли. Пожалуйста, выберите другую дату и время." :: r.messages }
          else
            let iso := formatDate d ++ "T" ++ formatTime tm ++ ":00"
            let ad := { ud.create_appointment_data with appointment_datetime_iso := some iso }
            prompt_confirmation { ud with create_appointment_data := ad,
                                          temp_available_times := none }
        | _, _ =>
          { state := ud, next := .CHOOSE_TIME,
            offered := some available,
            messages := ["Некорректный формат. Пожалуйста, выберите из списка.", "Выберите время приема:"] }

/-- Embeds `CreateStepHandler.process_confirmation` (lines 445-489):
"Подтвердить" posts the draft (a missing datetime or doctor id raises
KeyError, modelled as CRASH) and clears the session whatever the backend
answers; "Изменить" pops only the combined datetime and re-enters
`prompt_date`; "Отменить" cancels; anything else repeats the confirmation
prompt unchanged. -/
def process_confirmation (be : Backend) (today : Date) (fullname uuid : Option String)
    (reply : String) (ud : UserData) : StepResult :=
  if reply = "Подтвердить" then
    match ud.create_appointment_data.appointment_datetime_iso,
          ud.create_appointment_data.doctor_id with
    | some iso, some did =>
      { state := {}, next := .END,
        queries := [Query.postAppt],
        posted := some { patientName := fullname, patientUuid := uuid,
                         phone := "+7(999)999-99-99", appointmentTime := iso,
                         doctorId := did },
        messages := if be.post_success then ["Вы успешно записаны!"]
                    else ["Не удалось создать запись. Попробуйте позже."] }
    | _, _ => { state := ud, next := .CRASH }
  else if reply = "Изменить" then
    let ad := { ud.create_appointment_data with appointment_datetime_iso := none }
    let r := prompt_date today { ud with create_appointment_data := ad }
    { r with messages := "Хорошо, давайте изменим детали." :: r.messages }
  else if reply = "Отменить" then
    cancel_create
  else
    let r := prompt_confirmation ud
    { r with messages := "Пожалуйста, выберите один из вариантов." :: r.messages }

/-- Whether the prefilled date of a booking-flow state is absent or
well-formed, i.e. `prompt_date` cannot crash on it. -/
def prefillDateOK (ud : UserData) : Bool :=
  match ud.prefilled_info.date with
  | none => true
  | some s => (parseDate s).isSome

/- ---------- Edit flow (edit_handler.py) ---------- -/

/-- The `edit_appointment_data` dictionary of the edit flow. -/
structure EditData where
  new_date : Option String := none
  new_time : Option String := none
deriving Repr, DecidableEq, BEq

/-- `context.user_data` during the edit flow. -/
structure EditUserData where
  edit_appointment_data : EditData := {}
  selected_appointment : Option Appointment := none
deriving Repr, DecidableEq, BEq

/-- Conversation states of the edit flow; `stay` models a bare `return`
(PTB keeps the current state when a handler returns None); `stop` is
ConversationHandler.END; `crash` an uncaught exception. -/
inductive EStep where
  | chooseAppointment
  | editDate
  | editTime
  | confirm
  | stop
  | stay
  | crash
deriving Repr, DecidableEq, BEq

/-- The body of the PUT /Appointment/{id} request built by `confirm_edit`. -/
structure PutRequest where
  appointmentId : Nat
  patientName : String
  patientUuid : Option String
  phone : String
  appointmentTime : String
  doctorId : Nat
deriving Repr, DecidableEq, BEq

/-- Outcome of one edit-flow handler invocation. `cancelled` is set exactly
when the `EditHandler.cancel` method ran. -/
structure EditResult where
  state : EditUserData
  next : EStep
  offered : Option (List String) := none
  queries : List Query := []
  messages : List String := []
  putSent : Option PutRequest := none
  cancelled : Bool := false
deriving Repr, DecidableEq, BEq

/-- The "Запись #1" .. "Запись #n" option labels of the appointment list. -/
def apptOptions (n : Nat) : List String :=
  (List.range n).map (fun i => "Запись #" ++ toString (i + 1))

/-- Embeds `EditHandler.cancel` (lines 317-329). -/
def editCancel : EditResult :=
  { state := {}, next := .stop, cancelled := true,
    messages := ["Редактирование записи отменено."] }

/-- Embeds `EditHandler.prompt_appointment_choosing` (lines 56-106): resolve
the user uuid (absent: message and bare return), fetch the stored
appointments of the user (plus a doctor card and a clinic card per appointment for
display), bare return when empty, otherwise offer "Запись #n" labels. -/
def editPromptAppointmentChoosing (be : Backend) (uuid : Option String)
    (ud : EditUserData) : EditResult :=
  match uuid with
  | none =>
    { state := ud, next := .stay,
      messages := ["Пожалуйста, зарегистрируйтесь перед редактированием записей."] }
  | some u =>
    let appts := be.appointments_by_user u
    if appts.isEmpty then
      { state := ud, next := .stay, queries := [Query.apptsByUser],
        messages := ["У вас нет записей на прием для редактирования."] }
    else
      { state := ud, next := .chooseAppointment,
        offered := some (apptOptions appts.length),
        queries := Query.apptsByUser ::
          appts.flatMap (fun _ => [Query.doctorCard, Query.clinicCard]),
        messages := ["Выберите запись для редактирования:"] }

/-- Embeds `EditHandler.prompt_edit_appointment_date` (lines 148-165):
always offers the next 14 days (no availability filtering, no prefill). -/
def editPromptDate (today : Date) (ud : EditUserData) : EditResult :=
  { state := ud, next := .editDate,
    offered := some (datesNextTwoWeeks today),
    messages := ["Выберите новую дату приема:"] }

/-- Python `int(selected_option.split("#")[1].strip()) - 1`: the text after
the first "#", stripped and parsed as an int, minus one; a missing "#"
(IndexError) or a non-numeric part (ValueError) raises, modelled as `none`. -/
def parseHashIndex (s : String) : Option Int :=
  match splitOnChar '#' s.data with
  | _ :: second :: _ => (parseIntPy (String.mk second)).map (fun n => n - 1)
  | _ => none

/-- Embeds `EditHandler.choose_appointment` (lines 108-146): requires a user
uuid; a reply without the substring "Запись" re-prompts the appointment
list; otherwise the index is parsed from the reply and the appointment list
is fetched AGAIN from the backend; an empty re-fetch ends the conversation;
the dead `reply = "Отмена"` check follows; an out-of-range index re-prompts;
otherwise the appointment at the parsed index of the re-fetched list is
stored and the date prompt follows. -/
def editChooseAppointment (be : Backend) (uuid : Option String) (today : Date)
    (reply : String) (ud : EditUserData) : EditResult :=
  match uuid with
  | none =>
    { state := ud, next := .stop,
      messages := ["Пожалуйста, зарегистрируйтесь перед редактированием записей."] }
  | some u =>
    if hasSub "Запись" reply = false then
      let r := editPromptAppointmentChoosing be uuid ud
      { r with messages := "Пожалуйста, выберите корректную запись для редактирования." :: r.messages }
    else
      match parseHashIndex reply with
      | none => { state := ud, next := .crash }
      | some idx =>
        let appts := be.appointments_by_user u
        if appts.isEmpty then
          { state := ud, next := .stop, queries := [Query.apptsByUser],
            messages := ["У вас нет записей на прием для редактирования."] }
        else if reply = "Отмена" then
          editCancel
        else if idx < 0 ∨ (appts.length : Int) ≤ idx then
          let r := editPromptAppointmentChoosing be uuid ud
          { r with queries := Query.apptsByUser :: r.queries,
                   messages := "Некорректный выбор записи. Пожалуйста, попробуйте снова." :: r.messages }
        else
          match appts.get? idx.toNat with
          | some a =>
            let r := editPromptDate today { ud with selected_appointment := some a }
            { r with queries := Query.apptsByUser :: r.queries }
          | none => { state := ud, next := .crash }

/-- Embeds `EditHandler.prompt_edit_appointment_time` (lines 186-202): fetch
the slots of the doctor for the stored new date (no emptiness check) and offer
them; a missing `selected_appointment` key raises KeyError. -/
def editPromptTime (be : Backend) (ud : EditUserData) : EditResult :=
  match ud.selected_appointment with
  | none => { state := ud, next := .crash }
  | some a =>
    let times := be.working_hours (some a.doctorId) ud.edit_appointment_data.new_date
    { state := ud, next := .editTime,
      offered := some times,
      queries := [Query.workingHours],
      messages := ["Выберите новое время приема:"] }

/-- Embeds `EditHandler.choose_appointment_date` (lines 167-184): the back
label pops the selected appointment and re-prompts the appointment list; any
other reply is stored verbatim as the new date (no validation) and the time
prompt follows. -/
def editChooseDate (be : Backend) (uuid : Option String) (reply : String)
    (ud : EditUserData) : EditResult :=
  if reply = "Назад (к выбору записи)" then
    editPromptAppointmentChoosing be uuid { ud with selected_appointment := none }
  else
    editPromptTime be
      { ud with edit_appointment_data :=
          { ud.edit_appointment_data with new_date := some reply } }

/-- Embeds `EditHandler.prompt_edit_confirm` (lines 223-254): display the
old and new data (a doctor card and a clinic card are fetched) and offer
"Да"/"Нет"; a missing `selected_appointment` key raises KeyError. -/
def editPromptConfirm (ud : EditUserData) : EditResult :=
  match ud.selected_appointment with
  | none => { state := ud, next := .crash }
  | some _ =>
    { state := ud, next := .confirm,
      offered := some ["Да", "Нет"],
      queries := [Query.doctorCard, Query.clinicCard],
      messages := ["Вы уверены, что хотите изменить запись на прием?"] }

/-- Embeds `EditHandler.choose_appointment_time` (lines 204-221): the back
label pops the new date and re-prompts the date; any other reply is stored
verbatim as the new time and the confirmation prompt follows. -/
def editChooseTime (today : Date) (reply : String) (ud : EditUserData) : EditResult :=
  if reply = "Назад (к выбору даты)" then
    editPromptDate today
      { ud with edit_appointment_data :=
          { ud.edit_appointment_data with new_date := none } }
  else
    editPromptConfirm
      { ud with edit_appointment_data :=
          { ud.edit_appointment_data with new_time := some reply } }

/-- Embeds `EditHandler.confirm_edit` (lines 257-315). On "Да": parse the
stored new date and time (a missing key raises KeyError, modelled as CRASH;
an unparseable value takes the except-ValueError branch popping both and
returning to the date prompt); a combined datetime strictly earlier than now
pops both fields and returns to the date prompt; otherwise the PUT request
carrying the identity fields of the original appointment is sent, the session is
cleared and the conversation ends. Any reply other than "Да" runs `cancel`. -/
def editConfirmEdit (today : Date) (now : DateTime) (uuid : Option String)
    (reply : String) (ud : EditUserData) : EditResult :=
  if reply = "Да" then
    match ud.edit_appointment_data.new_date with
    | none => { state := ud, next := .crash }
    | some nds =>
      match parseDate nds with
      | none =>
        let r := editPromptDate today { ud with edit_appointment_data := {} }
        { r with messages := "Некорректный формат даты или времени. Пожалуйста, попробуйте снова." :: r.messages }
      | some nd =>
        match ud.edit_appointment_data.new_time with
        | none => { state := ud, next := .crash }
        | some nts =>
          match parseTime nts with
          | none =>
            let r := editPromptDate today { ud with edit_appointment_data := {} }
            { r with messages := "Некорректный формат даты или времени. Пожалуйста, попробуйте снова." :: r.messages }
          | some ntm =>
            if DateTime.ltb ⟨nd, ntm * 60⟩ now then
              let r := editPromptDate today { ud with edit_appointment_data := {} }
              { r with messages := "Выбранная дата и время уже прошли. Пожалуйста, выберите другую дату и время." :: r.messages }
            else
              match ud.selected_appointment with
              | none => { state := ud, next := .crash }
              | some a =>
                { state := {}, next := .stop,
                  queries := [Query.putAppt],
                  putSent := some { appointmentId := a.appointmentId,
                                    patientName := a.patientName,
                                    patientUuid := uuid,
                                    phone := a.phone,
                                    appointmentTime := formatDate nd ++ "T" ++ formatTime ntm ++ ":00",
                                    doctorId := a.doctorId },
                  messages := ["Запись успешно изменена!"] }
  else
    editCancel

/- ---------- Delete flow (delete_handler.py) ---------- -/

/-- `context.user_data` during the delete flow (the
`delete_appointment_data` dictionary created at start stays empty and is
elided). -/
structure DeleteUserData where
  selected_appointment : Option Appointment := none
deriving Repr, DecidableEq, BEq

/-- Conversation states of the delete flow (same conventions as `EStep`). -/
inductive DStep where
  | chooseAppointment
  | confirm
  | stop
  | stay
  | crash
deriving Repr, DecidableEq, BEq

/-- Outcome of one delete-flow handler invocation. `deletedId` records a
DELETE /Appointment/{id} request; `cancelled` is set exactly when the
`DeleteHandler.cancel` method ran. -/
structure DeleteResult where
  state : DeleteUserData
  next : DStep
  offered : Option (List String) := none
  queries : List Query := []
  messages : List String := []
  deletedId : Option Nat := none
  cancelled : Bool := false
deriving Repr, DecidableEq, BEq

/-- Embeds `DeleteHandler.cancel` (lines 215-227). -/
def deleteCancel : DeleteResult :=
  { state := {}, next := .stop, cancelled := true,
    messages := ["Удаление записи отменено."] }

/-- Embeds `DeleteHandler.prompt_appointment_choosing` (lines 57-107):
structurally identical to the prompt of the edit flow. -/
def deletePromptAppointmentChoosing (be : Backend) (uuid : Option String)
    (ud : DeleteUserData) : DeleteResult :=
  match uuid with
  | none =>
    { state := ud, next := .stay,
      messages := ["Пожалуйста, зарегистрируйтесь перед редактированием записей."] }
  | some u =>
    let appts := be.appointments_by_user u
    if appts.isEmpty then
      { state := ud, next := .stay, queries := [Query.apptsByUser],
        messages := ["У вас нет записей на прием для отмены."] }
    else
      { state := ud, next := .chooseAppointment,
        offered := some (apptOptions appts.length),
        queries := Query.apptsByUser ::
          appts.flatMap (fun _ => [Query.doctorCard, Query.clinicCard]),
        messages := ["Выберите запись для отмены:"] }

/-- Embeds `DeleteHandler.prompt_delete_confirm` (lines 149-178): a doctor
card and a clinic card are fetched for display and "Да"/"Нет" is offered; a
missing `selected_appointment` key raises KeyError. -/
def deletePromptConfirm (ud : DeleteUserData) : DeleteResult :=
  match ud.selected_appointment with
  | none => { state := ud, next := .crash }
  | some _ =>
    { state := ud, next := .confirm,
      offered := some ["Да", "Нет"],
      queries := [Query.doctorCard, Query.clinicCard],
      messages := ["Вы уверены, что хотите удалить запись на прием?"] }

/-- Embeds `DeleteHandler.choose_appointment` (lines 109-147): same shape as
the handler of the edit flow, chaining to the delete confirmation. -/
def deleteChooseAppointment (be : Backend) (uuid : Option String)
    (reply : String) (ud : DeleteUserData) : DeleteResult :=
  match uuid with
  | none =>
    { state := ud, next := .stop,
      messages := ["Пожалуйста, зарегистрируйтесь перед удалением записей."] }
  | some u =>
    if hasSub "Запись" reply = false then
      let r := deletePromptAppointmentChoosing be uuid ud
      { r with messages := "Пожалуйста, выберите корректную запись для удаления." :: r.messages }
    else
      match parseHashIndex reply with
      | none => { state := ud, next := .crash }
      | some idx =>
        let appts := be.appointments_by_user u
        if appts.isEmpty then
          { state := ud, next := .stop, queries := [Query.apptsByUser],
            messages := ["У вас нет записей на прием для удаления."] }
        else if reply = "Отмена" then
          deleteCancel
        else if idx < 0 ∨ (appts.length : Int) ≤ idx then
          let r := deletePromptAppointmentChoosing be uuid ud
          { r with queries := Query.apptsByUser :: r.queries,
                   messages := "Некорректный выбор записи. Пожалуйста, попробуйте снова." :: r.messages }
        else
          match appts.get? idx.toNat with
          | some a =>
            let r := deletePromptConfirm { ud with selected_appointment := some a }
            { r with queries := Query.apptsByUser :: r.queries }
          | none => { state := ud, next := .crash }

/-- Embeds `DeleteHandler.confirm_delete` (lines 180-213). On "Да": a
missing `selected_appointment` key raises KeyError; a missing uuid ends the
conversation; otherwise the DELETE request is issued and the conversation
ends WITHOUT clearing the session (the source has no clear() on this
branch). On "Нет": the session is cleared and the conversation ends. On any
other reply the confirmation prompt is re-issued (the source returns the
un-awaited coroutine of `prompt_delete_confirm`; modelled as the outcome
of that prompt). -/
def deleteConfirmDelete (uuid : Option String) (reply : String)
    (ud : DeleteUserData) : DeleteResult :=
  if reply = "Да" then
    match ud.selected_appointment with
    | none => { state := ud, next := .crash }
    | some a =>
      match uuid with
      | none =>
        { state := ud, next := .stop,
          messages := ["Пожалуйста, зарегистрируйтесь перед удалением записей."] }
      | some _ =>
        { state := ud, next := .stop,
          queries := [Query.deleteApptQ],
          deletedId := some a.appointmentId,
          messages := ["Запись успешно удалена."] }
  else if reply = "Нет" then
    { state := {}, next := .stop,
      messages := ["Удаление записи отменено."] }
  else
    let r := deletePromptConfirm ud
    { r with messages := "Пожалуйста, ответьте Да или Нет." :: r.messages }

/- ---------- Helper lemmas about the prompt handlers ---------- -/

theorem prompt_clinic_state_cad (be : Backend) (ud : UserData) :
    (prompt_clinic be ud).state.create_appointment_data = ud.create_appointment_data := by
  unfold prompt_clinic
  cases ud.prefilled_info.clinic <;> dsimp <;> split <;> rfl

theorem prompt_clinic_state_prefill (be : Backend) (ud : UserData) :
    (prompt_clinic be ud).state.prefilled_info = ud.prefilled_info := by
  unfold prompt_clinic
  cases ud.prefilled_info.clinic <;> dsimp <;> split <;> rfl

theorem prompt_clinic_next (be : Backend) (ud : UserData) :
    (prompt_clinic be ud).next = .CHOOSE_CLINIC ∨ (prompt_clinic be ud).next = .END := by
  unfold prompt_clinic
  cases ud.prefilled_info.clinic <;> dsimp <;> split <;> simp

theorem prompt_clinic_posted (be : Backend) (ud : UserData) :
    (prompt_clinic be ud).posted = none := by
  unfold prompt_clinic
  cases ud.prefilled_info.clinic <;> dsimp <;> split <;> rfl

theorem prompt_clinic_queries (be : Backend) (ud : UserData) :
    (prompt_clinic be ud).queries ≠ [] := by
  unfold prompt_clinic
  cases ud.prefilled_info.clinic <;> dsimp <;> split <;> simp

theorem prompt_specialization_state_cad (be : Backend) (ud : UserData) :
    (prompt_specialization be ud).state.create_appointment_data = ud.create_appointment_data := by
  unfold prompt_specialization
  dsimp only
  split
  · exact prompt_clinic_state_cad be ud
  · rfl

theorem prompt_specialization_next (be : Backend) (ud : UserData) :
    (prompt_specialization be ud).next = .CHOOSE_SPECIALIZATION ∨
    (prompt_specialization be ud).next = .CHOOSE_CLINIC ∨
    (prompt_specialization be ud).next = .END := by
  unfold prompt_specialization
  dsimp only
  split
  · exact Or.inr (prompt_clinic_next be ud)
  · simp

theorem prompt_specialization_posted (be : Backend) (ud : UserData) :
    (prompt_specialization be ud).posted = none := by
  unfold prompt_specialization
  dsimp only
  split
  · exact prompt_clinic_posted be ud
  · rfl

theorem prompt_specialization_queries (be : Backend) (ud : UserData) :
    (prompt_specialization be ud).queries ≠ [] := by
  unfold prompt_specialization
  dsimp only
  split <;> simp

theorem prompt_doctor_state_cad (be : Backend) (ud : UserData) :
    (prompt_doctor be ud).state.create_appointment_data = ud.create_appointment_data := by
  unfold prompt_doctor
  dsimp only
  split
  · exact prompt_specialization_state_cad be ud
  · rfl

theorem prompt_doctor_next (be : Backend) (ud : UserData) :
    (prompt_doctor be ud).next = .CHOOSE_DOCTOR ∨
    (prompt_doctor be ud).next = .CHOOSE_SPECIALIZATION ∨
    (prompt_doctor be ud).next = .CHOOSE_CLINIC ∨
    (prompt_doctor be ud).next = .END := by
  unfold prompt_doctor
  dsimp only
  split
  · exact Or.inr (prompt_specialization_next be ud)
  · simp

theorem prompt_doctor_posted (be : Backend) (ud : UserData) :
    (prompt_doctor be ud).posted = none := by
  unfold prompt_doctor
  dsimp only
  split
  · exact prompt_specialization_posted be ud
  · rfl

theorem prompt_doctor_queries (be : Backend) (ud : UserData) :
    (prompt_doctor be ud).queries ≠ [] := by
  unfold prompt_doctor
  dsimp only
  split <;> simp

theorem prompt_date_state (today : Date) (ud : UserData) :
    (prompt_date today ud).state = ud := by
  unfold prompt_date
  cases hd : ud.prefilled_info.date with
  | none => rfl
  | some s =>
    dsimp only
    cases hp : parseDate s with
    | none => rfl
    | some p => dsimp only; split <;> rfl

theorem prompt_date_posted (today : Date) (ud : UserData) :
    (prompt_date today ud).posted = none := by
  unfold prompt_date
  cases hd : ud.prefilled_info.date with
  | none => rfl
  | some s =>
    dsimp only
    cases hp : parseDate s with
    | none => rfl
    | some p => dsimp only; split <;> rfl

theorem prompt_date_queries (today : Date) (ud : UserData) :
    (prompt_date today ud).queries = [] := by
  unfold prompt_date
  cases hd : ud.prefilled_info.date with
  | none => rfl
  | some s =>
    dsimp only
    cases hp : parseDate s with
    | none => rfl
    | some p => dsimp only; split <;> rfl

theorem prompt_date_next (today : Date) (ud : UserData)
    (h : prefillDateOK ud = true) :
    (prompt_date today ud).next = .CHOOSE_DATE := by
  unfold prompt_date
  unfold prefillDateOK at h
  cases hd : ud.prefilled_info.date with
  | none => rfl
  | some s =>
    rw [hd] at h
    dsimp only at h
    dsimp only
    cases hp : parseDate s with
    | none => rw [hp] at h; simp at h
    | some p => dsimp only; split <;> rfl

theorem editPromptAppointmentChoosing_inert (be : Backend) (uuid : Option String)
    (ud : EditUserData) :
    (editPromptAppointmentChoosing be uuid ud).state = ud ∧
    (editPromptAppointmentChoosing be uuid ud).cancelled = false ∧
    ((editPromptAppointmentChoosing be uuid ud).next = .chooseAppointment ∨
     (editPromptAppointmentChoosing be uuid ud).next = .stay) := by
  unfold editPromptAppointmentChoosing
  cases uuid with
  | none => exact ⟨rfl, rfl, Or.inr rfl⟩
  | some u =>
    dsimp only
    split
    · exact ⟨rfl, rfl, Or.inr rfl⟩
    · exact ⟨rfl, rfl, Or.inl rfl⟩

theorem deletePromptAppointmentChoosing_inert (be : Backend) (uuid : Option String)
    (ud : DeleteUserData) :
    (deletePromptAppointmentChoosing be uuid ud).state = ud ∧
    (deletePromptAppointmentChoosing be uuid ud).cancelled = false ∧
    ((deletePromptAppointmentChoosing be uuid ud).next = .chooseAppointment ∨
     (deletePromptAppointmentChoosing be uuid ud).next = .stay) := by
  unfold deletePromptAppointmentChoosing
  cases uuid with
  | none => exact ⟨rfl, rfl, Or.inr rfl⟩
  | some u =>
    dsimp only
    split
    · exact ⟨rfl, rfl, Or.inr rfl⟩
    · exact ⟨rfl, rfl, Or.inl rfl⟩

/- ---------- Claim C9 ---------- -/

/-- C9: for every backend timeslot response that is a JSON list,
`get_doctor_working_hours` returns exactly the first five characters of each
string element of length at least 5, in input order, dropping all other
elements; for any non-list response the function produces no value (its
result variable is never assigned, so the source raises UnboundLocalError,
modelled by `none`). -/
theorem c9_working_hours :
    (∀ xs : List JsonVal,
        get_doctor_working_hours (.arr xs) =
          some (((strElems xs).filter (fun s => 5 ≤ s.length)).map (fun s => s.take 5))) ∧
    (∀ v : JsonVal, v.isArr = false → get_doctor_working_hours v = none) := by
  constructor
  · intro xs
    unfold get_doctor_working_hours
    induction xs with
    | nil => rfl
    | cons x rest ih =>
      cases x with
      | str s =>
        by_cases h : 5 ≤ s.length
        · simp [strElems, List.filterMap_cons, h, List.filter_cons] at *
          exact ih
        · simp [strElems, List.filterMap_cons, h, List.filter_cons] at *
          exact ih
      | num n => simpa [strElems, List.filterMap_cons] using ih
      | arr ys => simpa [strElems, List.filterMap_cons] using ih
      | obj => simpa [strElems, List.filterMap_cons] using ih
      | null => simpa [strElems, List.filterMap_cons] using ih
  · intro v h
    cases v with
    | arr xs => simp [JsonVal.isArr] at h
    | str s => rfl
    | num n => rfl
    | obj => rfl
    | null => rfl

/-- Witness for C9 at a concrete backend response: a list mixing full
"HH:MM:SS" strings, a too-short string and a number, and a non-list
response. -/
theorem c9_working_hours_witness :
    get_doctor_working_hours (.arr [.str "09:00:00", .str "9:00", .num 3, .str "10:30:00"]) =
      some ["09:00", "10:30"] ∧
    JsonVal.isArr .obj = false ∧
    get_doctor_working_hours .obj = none :=
  ⟨(c9_working_hours.1 [.str "09:00:00", .str "9:00", .num 3, .str "10:30:00"]).trans (by decide),
   rfl,
   c9_working_hours.2 .obj rfl⟩

/- ---------- Claim C10 ---------- -/

/-- C10: in the appointment-choice handlers of both the edit and delete flows the
cancel branch guarded by the exact reply "Отмена" is unreachable: no reply
whatsoever makes the handlers run their `cancel` method, and the reply
"Отмена" itself (with a registered user) takes the invalid-selection branch,
leaving the session state untouched and re-prompting the appointment list
(or staying in place when the re-fetched list is empty) instead of ending
the conversation. -/
theorem c10_cancel_unreachable :
    (∀ (be : Backend) (uuid : Option String) (today : Date) (reply : String)
        (ud : EditUserData),
        (editChooseAppointment be uuid today reply ud).cancelled = false) ∧
    (∀ (be : Backend) (uuid : Option String) (reply : String) (ud : DeleteUserData),
        (deleteChooseAppointment be uuid reply ud).cancelled = false) ∧
    (∀ (be : Backend) (u : String) (today : Date) (ud : EditUserData),
        (editChooseAppointment be (some u) today "Отмена" ud).state = ud ∧
        ((editChooseAppointment be (some u) today "Отмена" ud).next = .chooseAppointment ∨
         (editChooseAppointment be (some u) today "Отмена" ud).next = .stay)) ∧
    (∀ (be : Backend) (u : String) (ud : DeleteUserData),
        (deleteChooseAppointment be (some u) "Отмена" ud).state = ud ∧
        ((deleteChooseAppointment be (some u) "Отмена" ud).next = .chooseAppointment ∨
         (deleteChooseAppointment be (some u) "Отмена" ud).next = .stay)) := by
  refine ⟨?_, ?_, ?_, ?_⟩
  · intro be uuid today reply ud
    unfold editChooseAppointment
    cases uuid with
    | none => rfl
    | some u =>
      dsimp only
      split
      · exact (editPromptAppointmentChoosing_inert be (some u) ud).2.1
      · rename_i hsub
        cases hidx : parseHashIndex reply with
        | none => rfl
        | some idx =>
          dsimp only
          split
          · rfl
          · split
            · rename_i hcancel
              subst hcancel
              exact absurd (by decide : hasSub "Запись" "Отмена" = false) hsub
            · split
              · exact (editPromptAppointmentChoosing_inert be (some u) ud).2.1
              · cases hg : (be.appointments_by_user u).get? idx.toNat <;> rfl
  · intro be uuid reply ud
    unfold deleteChooseAppointment
    cases uuid with
    | none => rfl
    | some u =>
      dsimp only
      split
      · exact (deletePromptAppointmentChoosing_inert be (some u) ud).2.1
      · rename_i hsub
        cases hidx : parseHashIndex reply with
        | none => rfl
        | some idx =>
          dsimp only
          split
          · rfl
          · split
            · rename_i hcancel
              subst hcancel
              exact absurd (by decide : hasSub "Запись" "Отмена" = false) hsub
            · split
              · exact (deletePromptAppointmentChoosing_inert be (some u) ud).2.1
              · cases hg : (be.appointments_by_user u).get? idx.toNat <;> rfl
  · intro be u today ud
    unfold editChooseAppointment
    dsimp only
    rw [if_pos (show hasSub "Запись" "Отмена" = false by decide)]
    exact ⟨(editPromptAppointmentChoosing_inert be (some u) ud).1,
           (editPromptAppointmentChoosing_inert be (some u) ud).2.2⟩
  · intro be u ud
    unfold deleteChooseAppointment
    dsimp only
    rw [if_pos (show hasSub "Запись" "Отмена" = false by decide)]
    exact ⟨(deletePromptAppointmentChoosing_inert be (some u) ud).1,
           (deletePromptAppointmentChoosing_inert be (some u) ud).2.2⟩

/- ---------- Claim C5 ---------- -/

/-- A booking-flow state whose intent pass prefilled the date 2025-01-15. -/
def udPrefilled15 : UserData := { prefilled_info := { date := some "2025-01-15" } }

/-- C5 counterexample: with today = 2025-01-01 the 14-day candidate window
is 2025-01-01 .. 2025-01-14, yet the prefilled date 2025-01-15 — outside
that window — is NOT discarded: it is offered as the sole candidate, because
`prompt_date` keeps any prefilled date up to today + 14 days inclusive, one
day beyond the offered list. -/
theorem c5_counterexample :
    (prompt_date ⟨2025, 1, 1⟩ udPrefilled15).offered = some ["2025-01-15"] ∧
    (datesNextTwoWeeks ⟨2025, 1, 1⟩).contains "2025-01-15" = false := by
  constructor
  · rfl
  · decide

/-- C5 (amended): `prompt_date` offers the next 14 calendar days from today;
a prefilled date is kept as the sole candidate iff it is neither earlier
than today nor later than today + 14 days (an inclusive 15-day window, one
day longer than the offered 14-day list), and is discarded in favour of the
full list otherwise. -/
theorem c5_date_window (today : Date) (ud : UserData) :
    (ud.prefilled_info.date = none →
        (prompt_date today ud).offered = some (datesNextTwoWeeks today)) ∧
    (∀ (s : String) (p : Date),
        ud.prefilled_info.date = some s → parseDate s = some p →
        ((((addDays today 14).ltb p || p.ltb today) = false →
            (prompt_date today ud).offered = some [formatDate p]) ∧
         (((addDays today 14).ltb p || p.ltb today) = true →
            (prompt_date today ud).offered = some (datesNextTwoWeeks today)))) := by
  constructor
  · intro h
    unfold prompt_date
    rw [h]
  · intro s p hs hp
    constructor
    · intro hkeep
      unfold prompt_date
      rw [hs]
      dsimp only
      rw [hp]
      dsimp only
      rw [if_neg (by rw [hkeep]; exact Bool.false_ne_true)]
    · intro hdrop
      unfold prompt_date
      rw [hs]
      dsimp only
      rw [hp]
      dsimp only
      rw [if_pos hdrop]

/-- Witness for C5 at concrete inputs: a prefilled date inside the window is
the sole offer; a prefilled date before today is dropped for the full list;
and without prefill the full list is offered. -/
theorem c5_date_window_witness :
    (prompt_date ⟨2025, 1, 1⟩ { prefilled_info := { date := some "2025-01-10" } }).offered
        = some [formatDate ⟨2025, 1, 10⟩] ∧
    (prompt_date ⟨2025, 1, 1⟩ { prefilled_info := { date := some "2024-12-31" } }).offered
        = some (datesNextTwoWeeks ⟨2025, 1, 1⟩) ∧
    (prompt_date ⟨2025, 1, 1⟩ ({} : UserData)).offered
        = some (datesNextTwoWeeks ⟨2025, 1, 1⟩) :=
  ⟨((c5_date_window ⟨2025, 1, 1⟩ _).2 "2025-01-10" ⟨2025, 1, 10⟩ rfl (by decide)).1 (by decide),
   ((c5_date_window ⟨2025, 1, 1⟩ _).2 "2024-12-31" ⟨2024, 12, 31⟩ rfl (by decide)).2 (by decide),
   (c5_date_window ⟨2025, 1, 1⟩ _).1 rfl⟩

/- ---------- Claim C3 ---------- -/

/-- A backend with no data at all. -/
def beEmpty : Backend :=
  { clinic_cards := []
    clinic_by_name := fun _ => []
    specializations := fun _ _ _ _ => []
    specific_doctors := fun _ _ _ _ => []
    working_hours := fun _ _ => []
    post_success := true
    appointments_by_user := fun _ => [] }

/-- C3 counterexample: with an empty clinic list at the very first prompt
step, `prompt_clinic` ends the conversation (ConversationHandler.END)
instead of falling back to a prompt, contradicting the claim that an empty
clinic list at the first step does not end the conversation as a terminal
outcome. -/
theorem c3_counterexample :
    (prompt_clinic beEmpty ({} : UserData)).next = Step.END := rfl

/-- C3 (amended): an empty candidate set at every non-initial prompt step
falls back to the prompt of the previous step with an explanatory message and an
unchanged draft — empty specializations re-run the clinic prompt, empty
doctor lists re-run the specialization prompt, an empty time-slot list
returns to the date prompt — but an empty clinic list at the first step,
which has no previous prompt, ends the conversation. -/
theorem c3_empty_fallback (be : Backend) (today : Date) (ud : UserData) (reply : String) :
    (be.specializations ud.create_appointment_data.clinic_id
        ud.prefilled_info.specialization ud.prefilled_info.doctor
        (prefilledDT ud.prefilled_info) = [] →
      (prompt_specialization be ud).next = (prompt_clinic be ud).next ∧
      (prompt_specialization be ud).state.create_appointment_data
          = ud.create_appointment_data) ∧
    (be.specific_doctors ud.create_appointment_data.specialization_name
        ud.create_appointment_data.clinic_id ud.prefilled_info.doctor
        (prefilledDT ud.prefilled_info) = [] →
      (prompt_doctor be ud).next = (prompt_specialization be ud).next ∧
      (prompt_doctor be ud).state.create_appointment_data
          = ud.create_appointment_data) ∧
    (reply ≠ "Назад (к врачу)" → (parseDate reply).isSome = true →
     prefillDateOK ud = true →
     be.working_hours ud.create_appointment_data.doctor_id (some reply) = [] →
      (process_date_choice be today reply ud).next = Step.CHOOSE_DATE ∧
      (process_date_choice be today reply ud).state.create_appointment_data
          = { ud.create_appointment_data with chosen_date_str := none }) ∧
    (ud.prefilled_info.clinic = none → be.clinic_cards = [] →
      (prompt_clinic be ud).next = Step.END) := by
  refine ⟨?_, ?_, ?_, ?_⟩
  · intro h
    unfold prompt_specialization
    dsimp only
    rw [if_pos (by rw [h]; rfl)]
    exact ⟨rfl, prompt_clinic_state_cad be ud⟩
  · intro h
    unfold prompt_doctor
    dsimp only
    rw [if_pos (by rw [h]; rfl)]
    exact ⟨rfl, prompt_specialization_state_cad be ud⟩
  · intro hback hparse hpf h
    unfold process_date_choice
    rw [if_neg hback]
    cases hp : parseDate reply with
    | none => rw [hp] at hparse; simp at hparse
    | some p =>
      dsimp only
      rw [if_pos (by rw [h]; rfl)]
      constructor
      · have hpf2 : prefillDateOK { ud with create_appointment_data :=
            { ud.create_appointment_data with chosen_date_str := none } } = true := hpf
        exact prompt_date_next today _ hpf2
      · have := prompt_date_state today { ud with create_appointment_data :=
            { ud.create_appointment_data with chosen_date_str := none } }
        rw [this]
  · intro hpf h
    unfold prompt_clinic
    rw [hpf]
    dsimp only
    rw [if_pos (by rw [h]; rfl)]

/-- Witness for C3 at concrete inputs: against the empty backend, the
specialization prompt falls back to the clinic prompt, an empty time-slot
answer returns the date step to its own prompt with the draft date slot
empty, and the clinic prompt ends the conversation. -/
theorem c3_empty_fallback_witness :
    ((prompt_specialization beEmpty ({} : UserData)).next
        = (prompt_clinic beEmpty ({} : UserData)).next) ∧
    ((prompt_doctor beEmpty ({} : UserData)).next
        = (prompt_specialization beEmpty ({} : UserData)).next) ∧
    ((process_date_choice beEmpty ⟨2025, 1, 1⟩ "2025-01-02" ({} : UserData)).next
        = Step.CHOOSE_DATE) ∧
    ((prompt_clinic beEmpty ({} : UserData)).next = Step.END) :=
  ⟨((c3_empty_fallback beEmpty ⟨2025, 1, 1⟩ {} "2025-01-02").1 rfl).1,
   ((c3_empty_fallback beEmpty ⟨2025, 1, 1⟩ {} "2025-01-02").2.1 rfl).1,
   ((c3_empty_fallback beEmpty ⟨2025, 1, 1⟩ {} "2025-01-02").2.2.1 (by decide)
      (by decide) rfl rfl).1,
   (c3_empty_fallback beEmpty ⟨2025, 1, 1⟩ {} "2025-01-02").2.2.2 rfl rfl⟩

/- ---------- Claim C8 ---------- -/

/-- A concrete stored appointment. -/
def apptA : Appointment :=
  { appointmentId := 1, patientUuid := "uuid-1", patientName := "Иван Иванов",
    phone := "+70000000001", doctorId := 5,
    appointmentTime := "2025-01-01T09:00:00" }

/-- C8 counterexample: in the delete flow, confirming with "Да" (a
registered user, an appointment selected) issues the DELETE request and ends
the conversation, but the session state is NOT cleared — the success branch of
`confirm_delete` has no `context.user_data.clear()`. -/
theorem c8_counterexample :
    (deleteConfirmDelete (some "u") "Да" { selected_appointment := some apptA }).next
        = DStep.stop ∧
    (deleteConfirmDelete (some "u") "Да" { selected_appointment := some apptA }).deletedId
        = some 1 ∧
    (deleteConfirmDelete (some "u") "Да" { selected_appointment := some apptA }).state
        ≠ ({} : DeleteUserData) := by
  refine ⟨rfl, rfl, ?_⟩
  intro h
  simp [deleteConfirmDelete] at h

/-- C8 (amended): the edit flow clears the per-user session on every
terminal branch — successful submission of the update, decline, and any
other reply at the confirmation (both run `cancel`) — and the delete flow
clears it on decline ("Нет") and on its `cancel` handler; but the
successful-deletion branch of the delete flow ("Да" with a selected appointment and a
registered user) ends the conversation with the session left un-cleared. -/
theorem c8_terminal_clear (today : Date) (now : DateTime) :
    (∀ (uuid : Option String) (udE : EditUserData) (nds nts : String)
        (nd : Date) (ntm : Nat) (a : Appointment),
        udE.edit_appointment_data.new_date = some nds → parseDate nds = some nd →
        udE.edit_appointment_data.new_time = some nts → parseTime nts = some ntm →
        DateTime.ltb ⟨nd, ntm * 60⟩ now = false →
        udE.selected_appointment = some a →
        (editConfirmEdit today now uuid "Да" udE).state = ({} : EditUserData) ∧
        (editConfirmEdit today now uuid "Да" udE).next = EStep.stop ∧
        (editConfirmEdit today now uuid "Да" udE).putSent ≠ none) ∧
    (∀ (uuid : Option String) (reply : String) (udE : EditUserData),
        reply ≠ "Да" →
        (editConfirmEdit today now uuid reply udE).state = ({} : EditUserData) ∧
        (editConfirmEdit today now uuid reply udE).next = EStep.stop) ∧
    (∀ (uuid : Option String) (udD : DeleteUserData),
        (deleteConfirmDelete uuid "Нет" udD).state = ({} : DeleteUserData) ∧
        (deleteConfirmDelete uuid "Нет" udD).next = DStep.stop) ∧
    (deleteCancel.state = ({} : DeleteUserData) ∧ editCancel.state = ({} : EditUserData)) ∧
    (∀ (u : String) (udD : DeleteUserData) (a : Appointment),
        udD.selected_appointment = some a →
        (deleteConfirmDelete (some u) "Да" udD).state = udD ∧
        (deleteConfirmDelete (some u) "Да" udD).next = DStep.stop ∧
        (deleteConfirmDelete (some u) "Да" udD).deletedId = some a.appointmentId) := by
  refine ⟨?_, ?_, ?_, ⟨rfl, rfl⟩, ?_⟩
  · intro uuid udE nds nts nd ntm a h1 h2 h3 h4 h5 h6
    unfold editConfirmEdit
    rw [if_pos rfl, h1]
    dsimp only
    rw [h2]
    dsimp only
    rw [h3]
    dsimp only
    rw [h4]
    dsimp only
    rw [if_neg (by rw [h5]; exact Bool.false_ne_true), h6]
    exact ⟨rfl, rfl, by simp⟩
  · intro uuid reply udE h
    unfold editConfirmEdit
    rw [if_neg h]
    exact ⟨rfl, rfl⟩
  · intro uuid udD
    unfold deleteConfirmDelete
    rw [if_neg (by decide : ¬("Нет" = "Да")), if_pos rfl]
    exact ⟨rfl, rfl⟩
  · intro u udD a h
    unfold deleteConfirmDelete
    rw [if_pos rfl, h]
    exact ⟨rfl, rfl, rfl⟩

/-- Witness for C8 at concrete inputs: an edit confirmed in the future is
submitted and clears the session; a decline clears it; a delete decline
clears it; and a confirmed delete leaves the selected appointment in the
session. -/
theorem c8_terminal_clear_witness :
    ((editConfirmEdit ⟨2025, 1, 1⟩ ⟨⟨2025, 1, 1⟩, 0⟩ (some "u") "Да"
        { edit_appointment_data := { new_date := some "2025-01-02", new_time := some "09:30" },
          selected_appointment := some apptA }).state = ({} : EditUserData)) ∧
    ((editConfirmEdit ⟨2025, 1, 1⟩ ⟨⟨2025, 1, 1⟩, 0⟩ (some "u") "Нет"
        { selected_appointment := some apptA }).state = ({} : EditUserData)) ∧
    ((deleteConfirmDelete (some "u") "Нет" { selected_appointment := some apptA }).state
        = ({} : DeleteUserData)) ∧
    ((deleteConfirmDelete (some "u") "Да" { selected_appointment := some apptA }).state
        = { selected_appointment := some apptA }) :=
  ⟨((c8_terminal_clear ⟨2025, 1, 1⟩ ⟨⟨2025, 1, 1⟩, 0⟩).1 (some "u") _
      "2025-01-02" "09:30" ⟨2025, 1, 2⟩ 570 apptA rfl (by decide) rfl (by decide)
      (by decide) rfl).1,
   ((c8_terminal_clear ⟨2025, 1, 1⟩ ⟨⟨2025, 1, 1⟩, 0⟩).2.1 (some "u") "Нет" _
      (by decide)).1,
   ((c8_terminal_clear ⟨2025, 1, 1⟩ ⟨⟨2025, 1, 1⟩, 0⟩).2.2.1 (some "u") _).1,
   ((c8_terminal_clear ⟨2025, 1, 1⟩ ⟨⟨2025, 1, 1⟩, 0⟩).2.2.2.2 "u" _ apptA rfl).1⟩

/- ---------- Claim C7 ---------- -/

/-- A second concrete stored appointment, distinct from `apptA`. -/
def apptB : Appointment :=
  { appointmentId := 2, patientUuid := "uuid-1", patientName := "Иван Иванов",
    phone := "+70000000001", doctorId := 6,
    appointmentTime := "2025-02-02T10:00:00" }

/-- A backend whose user has the appointments [apptA, apptB]. -/
def beTwoAppts : Backend := { beEmpty with appointments_by_user := fun _ => [apptA, apptB] }

/-- A backend whose user has the single appointment [apptB]. -/
def beOneAppt : Backend := { beEmpty with appointments_by_user := fun _ => [apptB] }

/-- C7 counterexample: `choose_appointment` re-fetches the appointment list
from the backend before resolving the "#n" index — `Query.apptsByUser`
appears among its backend calls — and the appointment it selects for the
same session state and the same reply "Запись #1" is whatever the fresh
fetch returns, not an entry of any previously displayed list: with the
fetch answering [apptA, apptB] the selection is apptA, with the fetch
answering [apptB] it is apptB. So the displayed list is not authoritative
and the claimed absence of a re-fetch is refuted. -/
theorem c7_counterexample :
    ((editChooseAppointment beTwoAppts (some "u") ⟨2025, 1, 1⟩ "Запись #1"
        ({} : EditUserData)).queries).contains Query.apptsByUser = true ∧
    (editChooseAppointment beTwoAppts (some "u") ⟨2025, 1, 1⟩ "Запись #1"
        ({} : EditUserData)).state.selected_appointment = some apptA ∧
    (editChooseAppointment beOneAppt (some "u") ⟨2025, 1, 1⟩ "Запись #1"
        ({} : EditUserData)).state.selected_appointment = some apptB ∧
    apptA ≠ apptB ∧
    (deleteChooseAppointment beTwoAppts (some "u") "Запись #2"
        ({} : DeleteUserData)).state.selected_appointment = some apptB := by
  refine ⟨by decide, rfl, rfl, by decide, rfl⟩

/-- C7 (amended): in both flows the "#n" reply is resolved 1-indexed by
arithmetic index, but into a FRESHLY re-fetched appointment list — the
handler queries the backend for the appointments of the user again between the
prompt that displayed the list and the resolution of the index, and the
selected appointment is the entry of that re-fetched list. -/
theorem c7_index_selection (be : Backend) (u : String) (today : Date)
    (reply : String) (udE : EditUserData) (udD : DeleteUserData) (idx : Int)
    (hsub : hasSub "Запись" reply = true)
    (hidx : parseHashIndex reply = some idx)
    (hne : be.appointments_by_user u ≠ [])
    (hcancel : reply ≠ "Отмена")
    (h0 : ¬(idx < 0 ∨ ((be.appointments_by_user u).length : Int) ≤ idx)) :
    (editChooseAppointment be (some u) today reply udE).state.selected_appointment
        = (be.appointments_by_user u).get? idx.toNat ∧
    ((editChooseAppointment be (some u) today reply udE).queries).contains
        Query.apptsByUser = true ∧
    (deleteChooseAppointment be (some u) reply udD).state.selected_appointment
        = (be.appointments_by_user u).get? idx.toNat ∧
    ((deleteChooseAppointment be (some u) reply udD).queries).contains
        Query.apptsByUser = true := by
  have hlt : idx.toNat < (be.appointments_by_user u).length := by omega
  have hempty : (be.appointments_by_user u).isEmpty = false := by
    cases hl : be.appointments_by_user u with
    | nil => exact absurd hl hne
    | cons x xs => rfl
  cases hg : (be.appointments_by_user u).get? idx.toNat with
  | none =>
    exact absurd (List.get?_eq_get hlt) (by rw [hg]; simp)
  | some a =>
    have hedit :
        (editChooseAppointment be (some u) today reply udE).state.selected_appointment
            = some a ∧
        ((editChooseAppointment be (some u) today reply udE).queries).contains
            Query.apptsByUser = true := by
      unfold editChooseAppointment
      dsimp only
      rw [if_neg (by simp [hsub]), hidx]
      dsimp only
      rw [if_neg (by simp [hempty]), if_neg hcancel, if_neg h0, hg]
      exact ⟨rfl, by simp [editPromptDate]; decide⟩
    have hdel :
        (deleteChooseAppointment be (some u) reply udD).state.selected_appointment
            = some a ∧
        ((deleteChooseAppointment be (some u) reply udD).queries).contains
            Query.apptsByUser = true := by
      unfold deleteChooseAppointment
      dsimp only
      rw [if_neg (by simp [hsub]), hidx]
      dsimp only
      rw [if_neg (by simp [hempty]), if_neg hcancel, if_neg h0, hg]
      exact ⟨rfl, by simp [deletePromptConfirm]; decide⟩
    exact ⟨hg ▸ hedit.1, hedit.2, hg ▸ hdel.1, hdel.2⟩

/-- Witness for C7 at a concrete input: reply "Запись #2" against a backend
returning two appointments selects the second one in both flows. -/
theorem c7_index_selection_witness :
    (editChooseAppointment beTwoAppts (some "u") ⟨2025, 1, 1⟩ "Запись #2"
        ({} : EditUserData)).state.selected_appointment
      = (beTwoAppts.appointments_by_user "u").get? (Int.toNat 1) ∧
    (deleteChooseAppointment beTwoAppts (some "u") "Запись #2"
        ({} : DeleteUserData)).state.selected_appointment
      = (beTwoAppts.appointments_by_user "u").get? (Int.toNat 1) :=
  ⟨(c7_index_selection beTwoAppts "u" ⟨2025, 1, 1⟩ "Запись #2" {} {} 1
      (by decide) (by decide) (by decide) (by decide) (by decide)).1,
   (c7_index_selection beTwoAppts "u" ⟨2025, 1, 1⟩ "Запись #2" {} {} 1
      (by decide) (by decide) (by decide) (by decide) (by decide)).2.2.1⟩

/- ---------- Claim C2 ---------- -/

/-- C2: whenever the combined chosen date and time is strictly earlier than
the current moment at validation time, the chosen datetime is rejected: in
`process_time_choice` of the booking flow the `appointment_datetime_iso` slot
is left unwritten, nothing is posted and the flow returns to date selection
(CHOOSE_DATE, not CHOOSE_TIME); in `confirm_edit` of the edit flow the PUT
request is not sent, the pending new date/time are dropped and the flow
returns to the date prompt. The stored values are quantified over, so this
covers values that arrived by direct selection as well as by prefill. -/
theorem c2_past_datetime_rejected (today : Date) (now : DateTime) :
    (∀ (reply : String) (ud : UserData) (ds : String) (d : Date) (tm : Nat),
        reply ≠ "Назад (к дате)" →
        (ud.temp_available_times.getD []).contains reply = true →
        ud.create_appointment_data.chosen_date_str = some ds →
        parseDate ds = some d → parseTime reply = some tm →
        DateTime.ltb ⟨d, tm * 60⟩ now = true →
        prefillDateOK ud = true →
        (process_time_choice today now reply ud).state.create_appointment_data.appointment_datetime_iso
            = ud.create_appointment_data.appointment_datetime_iso ∧
        (process_time_choice today now reply ud).posted = none ∧
        (process_time_choice today now reply ud).next = Step.CHOOSE_DATE) ∧
    (∀ (uuid : Option String) (udE : EditUserData) (nds nts : String)
        (nd : Date) (ntm : Nat),
        udE.edit_appointment_data.new_date = some nds → parseDate nds = some nd →
        udE.edit_appointment_data.new_time = some nts → parseTime nts = some ntm →
        DateTime.ltb ⟨nd, ntm * 60⟩ now = true →
        (editConfirmEdit today now uuid "Да" udE).putSent = none ∧
        (editConfirmEdit today now uuid "Да" udE).next = EStep.editDate ∧
        (editConfirmEdit today now uuid "Да" udE).state.edit_appointment_data
            = ({} : EditData)) := by
  constructor
  · intro reply ud ds d tm hback hmem hds hd ht hlt hpf
    unfold process_time_choice
    rw [if_neg hback]
    dsimp only
    rw [if_neg (by rw [hmem]; decide), hds]
    dsimp only
    rw [hd, ht]
    dsimp only
    rw [if_pos hlt]
    have hstate := prompt_date_state today { ud with temp_available_times := none }
    have hposted := prompt_date_posted today { ud with temp_available_times := none }
    have hnext := prompt_date_next today { ud with temp_available_times := none }
        (by exact hpf)
    exact ⟨by rw [hstate], by rw [hposted], by rw [hnext]⟩
  · intro uuid udE nds nts nd ntm h1 h2 h3 h4 h5
    unfold editConfirmEdit
    rw [if_pos rfl, h1]
    dsimp only
    rw [h2]
    dsimp only
    rw [h3]
    dsimp only
    rw [h4]
    dsimp only
    rw [if_pos h5]
    exact ⟨rfl, rfl, rfl⟩

/-- The booking-flow state of the C2 witness: chosen date 2025-01-01,
stored time slots 09:00 and 10:30. -/
def udTimeStep : UserData :=
  { create_appointment_data := { chosen_date_str := some "2025-01-01" },
    temp_available_times := some ["09:00", "10:30"] }

/-- The edit-flow state of the C2 witness. -/
def udEditConfirm : EditUserData :=
  { edit_appointment_data := { new_date := some "2025-01-01", new_time := some "09:00" },
    selected_appointment := some apptA }

/-- Witness for C2 at concrete inputs: date 2025-01-01 at 09:00, validated
at 2025-01-01 10:00:00, is rejected in both flows. -/
theorem c2_past_datetime_rejected_witness :
    ((process_time_choice ⟨2025, 1, 1⟩ ⟨⟨2025, 1, 1⟩, 36000⟩ "09:00" udTimeStep).next
        = Step.CHOOSE_DATE) ∧
    ((process_time_choice ⟨2025, 1, 1⟩ ⟨⟨2025, 1, 1⟩, 36000⟩ "09:00" udTimeStep).posted
        = none) ∧
    ((editConfirmEdit ⟨2025, 1, 1⟩ ⟨⟨2025, 1, 1⟩, 36000⟩ (some "u") "Да" udEditConfirm).putSent
        = none) :=
  ⟨((c2_past_datetime_rejected ⟨2025, 1, 1⟩ ⟨⟨2025, 1, 1⟩, 36000⟩).1 "09:00" udTimeStep
      "2025-01-01" ⟨2025, 1, 1⟩ 540 (by decide) (by decide) rfl (by decide)
      (by decide) (by decide) rfl).2.2,
   ((c2_past_datetime_rejected ⟨2025, 1, 1⟩ ⟨⟨2025, 1, 1⟩, 36000⟩).1 "09:00" udTimeStep
      "2025-01-01" ⟨2025, 1, 1⟩ 540 (by decide) (by decide) rfl (by decide)
      (by decide) (by decide) rfl).2.1,
   ((c2_past_datetime_rejected ⟨2025, 1, 1⟩ ⟨⟨2025, 1, 1⟩, 36000⟩).2 (some "u") udEditConfirm
      "2025-01-01" "09:00" ⟨2025, 1, 1⟩ 540 rfl (by decide) rfl (by decide)
      (by decide)).1⟩

/- ---------- Claim C6 ---------- -/

/-- Concrete clinics for the C6 counterexample. -/
def clinicAlpha : Clinic := { clinicId := 1, name := "Альфа", location := "Адрес 1" }

/-- A second clinic, present only in the fresh backend answer. -/
def clinicBeta : Clinic := { clinicId := 2, name := "Бета", location := "Адрес 2" }

/-- A backend whose clinic list is [clinicBeta]. -/
def beBeta : Backend := { beEmpty with clinic_cards := [clinicBeta] }

/-- C6 counterexample: at the clinic step, a reply matching no stored
candidate does NOT reuse the existing candidate list: `process_clinic_choice`
re-runs `prompt_clinic`, which issues a fresh backend query
(`Query.clinicCards`) and offers whatever that query returns — here "Бета",
not the stored candidate "Альфа". -/
theorem c6_counterexample :
    (process_clinic_choice beBeta "Гамма"
        { temp_clinics_list := some [clinicAlpha] }).queries = [Query.clinicCards] ∧
    (process_clinic_choice beBeta "Гамма"
        { temp_clinics_list := some [clinicAlpha] }).offered = some ["Бета"] ∧
    (["Бета"] : List String) ≠ ["Альфа"] := by
  refine ⟨rfl, rfl, by decide⟩

/-- C6 (amended): only the time step repeats its prompt by reusing the
stored candidate list with no backend query; the clinic, specialization and
doctor steps each re-run their prompt handler on a no-match reply, which
re-queries the backend and offers the freshly fetched candidate list. -/
theorem c6_no_match_reprompt (be : Backend) (today : Date) (now : DateTime)
    (reply : String) (ud : UserData) :
    (reply ≠ "Назад (к дате)" →
     (ud.temp_available_times.getD []).contains reply = false →
     (process_time_choice today now reply ud).state = ud ∧
     (process_time_choice today now reply ud).next = Step.CHOOSE_TIME ∧
     (process_time_choice today now reply ud).offered
         = some (ud.temp_available_times.getD []) ∧
     (process_time_choice today now reply ud).queries = []) ∧
    (reply ≠ "Отмена" →
     (ud.temp_clinics_list.getD []).find? (fun c => c.name = reply) = none →
     (process_clinic_choice be reply ud).queries ≠ [] ∧
     (process_clinic_choice be reply ud).offered = (prompt_clinic be ud).offered ∧
     (process_clinic_choice be reply ud).state = (prompt_clinic be ud).state) ∧
    (reply ≠ "Назад (к клинике)" →
     (ud.temp_specs_list.getD []).find? (fun sp => sp.name = reply) = none →
     (process_specialization_choice be reply ud).queries ≠ [] ∧
     (process_specialization_choice be reply ud).offered
         = (prompt_specialization be ud).offered ∧
     (process_specialization_choice be reply ud).state
         = (prompt_specialization be ud).state) ∧
    (reply ≠ "Назад (к специализации)" →
     (ud.temp_doctors_list.getD []).find? (fun d => d.name = reply) = none →
     (process_doctor_choice be today reply ud).queries ≠ [] ∧
     (process_doctor_choice be today reply ud).offered
         = (prompt_doctor be ud).offered ∧
     (process_doctor_choice be today reply ud).state
         = (prompt_doctor be ud).state) := by
  refine ⟨?_, ?_, ?_, ?_⟩
  · intro hback hmiss
    unfold process_time_choice
    rw [if_neg hback]
    dsimp only
    rw [if_pos hmiss]
    exact ⟨rfl, rfl, rfl, rfl⟩
  · intro hcancel hmiss
    unfold process_clinic_choice
    rw [if_neg hcancel, hmiss]
    exact ⟨prompt_clinic_queries be ud, rfl, rfl⟩
  · intro hback hmiss
    unfold process_specialization_choice
    rw [if_neg hback, hmiss]
    exact ⟨prompt_specialization_queries be ud, rfl, rfl⟩
  · intro hback hmiss
    unfold process_doctor_choice
    rw [if_neg hback, hmiss]
    exact ⟨prompt_doctor_queries be ud, rfl, rfl⟩

/-- A stored specialization candidate for the C6 witness. -/
def specTherapist : SpecItem := { id := 0, name := "Терапевт" }

/-- A stored doctor candidate for the C6 witness. -/
def docIvanov : Doctor := { doctorId := 5, name := "Иванов", speciality := "Терапевт" }

/-- Witness for C6 at concrete inputs: the no-match reply "Гамма" at the
time step re-offers the stored list with no query, while at the clinic,
specialization and doctor steps it triggers a fresh backend query. -/
theorem c6_no_match_reprompt_witness :
    ((process_time_choice ⟨2025, 1, 1⟩ ⟨⟨2025, 1, 1⟩, 0⟩ "Гамма" udTimeStep).offered
        = some ["09:00", "10:30"]) ∧
    ((process_time_choice ⟨2025, 1, 1⟩ ⟨⟨2025, 1, 1⟩, 0⟩ "Гамма" udTimeStep).queries = []) ∧
    ((process_clinic_choice beBeta "Гамма"
        { temp_clinics_list := some [clinicAlpha] }).queries ≠ []) ∧
    ((process_specialization_choice beBeta "Гамма"
        { temp_specs_list := some [specTherapist] }).queries ≠ []) ∧
    ((process_doctor_choice beBeta ⟨2025, 1, 1⟩ "Гамма"
        { temp_doctors_list := some [docIvanov] }).queries ≠ []) :=
  ⟨((c6_no_match_reprompt beBeta ⟨2025, 1, 1⟩ ⟨⟨2025, 1, 1⟩, 0⟩ "Гамма" udTimeStep).1
      (by decide) (by decide)).2.2.1,
   ((c6_no_match_reprompt beBeta ⟨2025, 1, 1⟩ ⟨⟨2025, 1, 1⟩, 0⟩ "Гамма" udTimeStep).1
      (by decide) (by decide)).2.2.2,
   ((c6_no_match_reprompt beBeta ⟨2025, 1, 1⟩ ⟨⟨2025, 1, 1⟩, 0⟩ "Гамма"
      { temp_clinics_list := some [clinicAlpha] }).2.1 (by decide) (by decide)).1,
   ((c6_no_match_reprompt beBeta ⟨2025, 1, 1⟩ ⟨⟨2025, 1, 1⟩, 0⟩ "Гамма"
      { temp_specs_list := some [specTherapist] }).2.2.1 (by decide) (by decide)).1,
   ((c6_no_match_reprompt beBeta ⟨2025, 1, 1⟩ ⟨⟨2025, 1, 1⟩, 0⟩ "Гамма"
      { temp_doctors_list := some [docIvanov] }).2.2.2 (by decide) (by decide)).1⟩

/- ---------- Claim C4 ---------- -/

/-- A backend that knows one doctor, enough for re-prompting. -/
def beC4 : Backend :=
  { beEmpty with
    specific_doctors := fun _ _ _ _ => [{ doctorId := 5, name := "Иванов", speciality := "Терапевт" }] }

/-- A fully collected draft at the confirmation step. `chosen_date_str` is
still present because `process_time_choice` pops that key from the
top-level `user_data` dict rather than from `create_appointment_data`. -/
def udConfirmStage : UserData :=
  { create_appointment_data :=
      { clinic_id := some 1, clinic_name := some "Альфа",
        specialization_id := some 0, specialization_name := some "Терапевт",
        doctor_id := some 5, doctor_name := some "Иванов",
        chosen_date_str := some "2025-01-02",
        appointment_datetime_iso := some "2025-01-02T09:00:00" } }

/-- The state reached from `udConfirmStage` by answering "Изменить" at the
confirmation: only the combined datetime is dropped and the flow re-enters
the date prompt, with the doctor and date slots still set. -/
def udReenteredDate : UserData :=
  (process_confirmation beC4 ⟨2025, 1, 1⟩ none none "Изменить" udConfirmStage).state

/-- C4 counterexample: pressing the back label of the date step from
`udReenteredDate` removes the doctor slots and returns to the doctor prompt,
but the already-set deeper slot `chosen_date_str` — no longer guaranteed
valid for whichever doctor will be chosen next — survives in the draft,
contradicting the claim that back-navigation also removes already-set deeper
slots. -/
theorem c4_counterexample :
    (process_date_choice beC4 ⟨2025, 1, 1⟩ "Назад (к врачу)" udReenteredDate).state.create_appointment_data.doctor_id
        = none ∧
    (process_date_choice beC4 ⟨2025, 1, 1⟩ "Назад (к врачу)" udReenteredDate).state.create_appointment_data.chosen_date_str
        = some "2025-01-02" ∧
    (process_date_choice beC4 ⟨2025, 1, 1⟩ "Назад (к врачу)" udReenteredDate).next
        = Step.CHOOSE_DOCTOR :=
  ⟨rfl, rfl, rfl⟩

/-- C4 (amended): each back label removes exactly the slot pair owned by the
step being returned to — the clinic pair when backing out of specialization
choice, the specialization pair when backing out of doctor choice, the
doctor pair when backing out of date choice, the chosen date (and the stored
time list) when backing out of time choice — leaves every other draft slot
unchanged, including already-set deeper slots, and re-runs the prompt of the previous
step, which re-fetches its candidate list from the backend (the
date prompt generates its dates locally and issues no query). -/
theorem c4_back_navigation (be : Backend) (today : Date) (now : DateTime) (ud : UserData) :
    ((process_specialization_choice be "Назад (к клинике)" ud).state.create_appointment_data
        = { ud.create_appointment_data with clinic_id := none, clinic_name := none } ∧
     (process_specialization_choice be "Назад (к клинике)" ud).queries ≠ []) ∧
    ((process_doctor_choice be today "Назад (к специализации)" ud).state.create_appointment_data
        = { ud.create_appointment_data with specialization_id := none, specialization_name := none } ∧
     (process_doctor_choice be today "Назад (к специализации)" ud).queries ≠ []) ∧
    ((process_date_choice be today "Назад (к врачу)" ud).state.create_appointment_data
        = { ud.create_appointment_data with doctor_id := none, doctor_name := none } ∧
     (process_date_choice be today "Назад (к врачу)" ud).queries ≠ []) ∧
    ((process_time_choice today now "Назад (к дате)" ud).state.create_appointment_data
        = { ud.create_appointment_data with chosen_date_str := none } ∧
     (process_time_choice today now "Назад (к дате)" ud).state.temp_available_times = none ∧
     (process_time_choice today now "Назад (к дате)" ud).queries = []) := by
  refine ⟨⟨?_, ?_⟩, ⟨?_, ?_⟩, ⟨?_, ?_⟩, ⟨?_, ?_, ?_⟩⟩
  · unfold process_specialization_choice
    rw [if_pos rfl]
    exact prompt_clinic_state_cad be _
  · unfold process_specialization_choice
    rw [if_pos rfl]
    exact prompt_clinic_queries be _
  · unfold process_doctor_choice
    rw [if_pos rfl]
    exact prompt_specialization_state_cad be _
  · unfold process_doctor_choice
    rw [if_pos rfl]
    exact prompt_specialization_queries be _
  · unfold process_date_choice
    rw [if_pos rfl]
    exact prompt_doctor_state_cad be _
  · unfold process_date_choice
    rw [if_pos rfl]
    exact prompt_doctor_queries be _
  · unfold process_time_choice
    rw [if_pos rfl]
    rw [prompt_date_state]
  · unfold process_time_choice
    rw [if_pos rfl]
    rw [prompt_date_state]
  · unfold process_time_choice
    rw [if_pos rfl]
    exact prompt_date_queries today _

/- ---------- Claim C1 ---------- -/

theorem not_advancesPast_of_rank_le {cur nxt : Step} (h : nxt.rank ≤ cur.rank) :
    ¬ advancesPast cur nxt :=
  fun hp => absurd hp.2 (Nat.not_lt.2 h)

theorem not_advancesPast_end (cur : Step) : ¬ advancesPast cur .END :=
  fun hp => by
    have := hp.1
    simp [Step.isDialog] at this

/-- A booking-flow state at the date step: clinic, specialization and doctor
already collected, no prefill. -/
def udDateStage : UserData :=
  { create_appointment_data :=
      { clinic_id := some 1, clinic_name := some "Альфа",
        specialization_id := some 0, specialization_name := some "Терапевт",
        doctor_id := some 5, doctor_name := some "Иванов" } }

/-- A backend with one free time slot on every date. -/
def beSlots : Backend := { beEmpty with working_hours := fun _ _ => ["09:00"] }

/-- C1 counterexample: at the date step with today = 2025-01-01 the offered
candidate list is 2025-01-01 .. 2025-01-14; the reply "2030-05-05" is
neither the back label of the step nor a member of that list, yet
`process_date_choice` writes it into the `chosen_date_str` slot of the draft and
advances the conversation to the later CHOOSE_TIME step, because the date
step validates replies by date-format parsing only, never against the
candidate list. -/
theorem c1_counterexample :
    ("2030-05-05" ≠ "Назад (к врачу)") ∧
    ((prompt_date ⟨2025, 1, 1⟩ udDateStage).offered.getD []).contains "2030-05-05" = false ∧
    (process_date_choice beSlots ⟨2025, 1, 1⟩ "2030-05-05" udDateStage).state.create_appointment_data
        ≠ udDateStage.create_appointment_data ∧
    (process_date_choice beSlots ⟨2025, 1, 1⟩ "2030-05-05" udDateStage).state.create_appointment_data.chosen_date_str
        = some "2030-05-05" ∧
    (process_date_choice beSlots ⟨2025, 1, 1⟩ "2030-05-05" udDateStage).next
        = Step.CHOOSE_TIME := by
  refine ⟨by decide, by decide, by decide, rfl, rfl⟩

/-- C1 (amended): at the clinic, specialization, doctor, time and
confirmation steps, a reply that is neither the back/cancel label of the step nor
a match of the stored candidate list leaves every draft slot unchanged and
never advances the conversation past the step being processed (it re-runs
the same or an earlier prompt, or ends the dialog when a re-queried clinic
list is empty). The date step is excluded: it accepts any well-formed date
whether or not it was offered (see the counterexample); also, the time step
matches against the full stored `_temp_available_times` list, which is the
displayed list except when a prefilled time narrowed the display. -/
theorem c1_no_match_frame (be : Backend) (today : Date) (now : DateTime) :
    (∀ (reply : String) (ud : UserData),
        reply ≠ "Отмена" →
        (ud.temp_clinics_list.getD []).find? (fun c => c.name = reply) = none →
        (process_clinic_choice be reply ud).state.create_appointment_data
            = ud.create_appointment_data ∧
        ¬ advancesPast Step.CHOOSE_CLINIC (process_clinic_choice be reply ud).next) ∧
    (∀ (reply : String) (ud : UserData),
        reply ≠ "Назад (к клинике)" →
        (ud.temp_specs_list.getD []).find? (fun s => s.name = reply) = none →
        (process_specialization_choice be reply ud).state.create_appointment_data
            = ud.create_appointment_data ∧
        ¬ advancesPast Step.CHOOSE_SPECIALIZATION
            (process_specialization_choice be reply ud).next) ∧
    (∀ (reply : String) (ud : UserData),
        reply ≠ "Назад (к специализации)" →
        (ud.temp_doctors_list.getD []).find? (fun d => d.name = reply) = none →
        (process_doctor_choice be today reply ud).state.create_appointment_data
            = ud.create_appointment_data ∧
        ¬ advancesPast Step.CHOOSE_DOCTOR (process_doctor_choice be today reply ud).next) ∧
    (∀ (reply : String) (ud : UserData),
        reply ≠ "Назад (к дате)" →
        (ud.temp_available_times.getD []).contains reply = false →
        (process_time_choice today now reply ud).state = ud ∧
        ¬ advancesPast Step.CHOOSE_TIME (process_time_choice today now reply ud).next) ∧
    (∀ (fullname uuid : Option String) (reply : String) (ud : UserData),
        reply ≠ "Подтвердить" → reply ≠ "Изменить" → reply ≠ "Отменить" →
        (process_confirmation be today fullname uuid reply ud).state = ud ∧
        ¬ advancesPast Step.CONFIRMATION
            (process_confirmation be today fullname uuid reply ud).next) := by
  refine ⟨?_, ?_, ?_, ?_, ?_⟩
  · intro reply ud hcancel hmiss
    unfold process_clinic_choice
    rw [if_neg hcancel, hmiss]
    dsimp only
    refine ⟨prompt_clinic_state_cad be ud, ?_⟩
    rcases prompt_clinic_next be ud with h | h <;> rw [h]
    · exact not_advancesPast_of_rank_le (by decide)
    · exact not_advancesPast_end _
  · intro reply ud hback hmiss
    unfold process_specialization_choice
    rw [if_neg hback, hmiss]
    dsimp only
    refine ⟨prompt_specialization_state_cad be ud, ?_⟩
    rcases prompt_specialization_next be ud with h | h | h <;> rw [h]
    · exact not_advancesPast_of_rank_le (by decide)
    · exact not_advancesPast_of_rank_le (by decide)
    · exact not_advancesPast_end _
  · intro reply ud hback hmiss
    unfold process_doctor_choice
    rw [if_neg hback, hmiss]
    dsimp only
    refine ⟨prompt_doctor_state_cad be ud, ?_⟩
    rcases prompt_doctor_next be ud with h | h | h | h <;> rw [h]
    · exact not_advancesPast_of_rank_le (by decide)
    · exact not_advancesPast_of_rank_le (by decide)
    · exact not_advancesPast_of_rank_le (by decide)
    · exact not_advancesPast_end _
  · intro reply ud hback hmiss
    unfold process_time_choice
    rw [if_neg hback]
    dsimp only
    rw [if_pos hmiss]
    exact ⟨rfl, not_advancesPast_of_rank_le (Nat.le_refl _)⟩
  · intro fullname uuid reply ud h1 h2 h3
    unfold process_confirmation
    rw [if_neg h1, if_neg h2, if_neg h3]
    exact ⟨rfl, not_advancesPast_of_rank_le (Nat.le_refl _)⟩

/-- Witness for C1 at concrete inputs: the unknown reply "Дельта" at the
clinic step and at the time step leaves the draft unchanged and does not
advance. -/
theorem c1_no_match_frame_witness :
    ((process_clinic_choice beBeta "Дельта"
        { temp_clinics_list := some [clinicAlpha] }).state.create_appointment_data
      = ({} : AppointmentData)) ∧
    (¬ advancesPast Step.CHOOSE_CLINIC
      (process_clinic_choice beBeta "Дельта"
        { temp_clinics_list := some [clinicAlpha] }).next) ∧
    ((process_time_choice ⟨2025, 1, 1⟩ ⟨⟨2025, 1, 1⟩, 0⟩ "Дельта" udTimeStep).state
      = udTimeStep) :=
  ⟨((c1_no_match_frame beBeta ⟨2025, 1, 1⟩ ⟨⟨2025, 1, 1⟩, 0⟩).1 "Дельта"
      { temp_clinics_list := some [clinicAlpha] } (by decide) (by decide)).1,
   ((c1_no_match_frame beBeta ⟨2025, 1, 1⟩ ⟨⟨2025, 1, 1⟩, 0⟩).1 "Дельта"
      { temp_clinics_list := some [clinicAlpha] } (by decide) (by decide)).2,
   ((c1_no_match_frame beBeta ⟨2025, 1, 1⟩ ⟨⟨2025, 1, 1⟩, 0⟩).2.2.2.1 "Дельта"
      udTimeStep (by decide) (by decide)).1⟩
